import Mathlib

/-!
Verification development for the `vulkan-renderer` repository.

The definitions below are a shallow embedding of the C++ sources under
`Sources/`: Vulkan handles are modelled as `Nat` (with `0` standing for
`VK_NULL_HANDLE`), byte buffers as `List Nat`, and calls into the Vulkan
driver or the file system as explicit oracles / traces of events.  Each
function keeps the name and the control flow of the C++ function it embeds.
-/

namespace VulkanRenderer

/-- Result codes of the Vulkan calls that the frame protocol inspects
(`VK_SUCCESS`, `VK_SUBOPTIMAL_KHR`, `VK_ERROR_OUT_OF_DATE_KHR`, and any
other value, which the code treats uniformly through `default:`). -/
inductive VkResult where
  | success
  | suboptimal_khr
  | error_out_of_date_khr
  | error_other
deriving DecidableEq, Repr

/-- `Vulkan::QueueParameters` (Vulkan.hpp): a queue handle plus family index. -/
structure QueueParameters where
  handle : Nat := 0
  family_index : Nat := 0
deriving DecidableEq, Repr

/-- `Vulkan::QueueFamilyIndices` (Vulkan.hpp); defaults are `UINT32_MAX`. -/
structure QueueFamilyIndices where
  graphics_queue_family_index : Nat := 4294967295
  present_queue_family_index : Nat := 4294967295
deriving DecidableEq, Repr

/-- `Vulkan::SwapChain` (Vulkan.hpp lines 31-53).  `VkExtent2D extent` is
modelled by its two components; `VkSurfaceFormatKHR image_format` by an
opaque code.  The field name `framebuffes` keeps the source's spelling. -/
structure SwapChain where
  image_format : Nat := 0
  max_frames_in_flight : Nat := 0
  handle : Nat := 0
  render_pass : Nat := 0
  extent_width : Nat := 0
  extent_height : Nat := 0
  current_frame : Nat := 0
  images : List Nat := []
  views : List Nat := []
  framebuffes : List Nat := []
  image_available_semaphores : List Nat := []
  render_finished_semaphores : List Nat := []
  in_flight_fences : List Nat := []
deriving DecidableEq, Repr

/-- `Vulkan::SwapChain::is_valid` (Vulkan.hpp line 46):
`handle != VK_NULL_HANDLE`. -/
def SwapChain.is_valid (sc : SwapChain) : Bool :=
  sc.handle != 0

/-- `Vulkan::Pipeline` (Vulkan.hpp lines 110-122): the three handles held by
a built pipeline. -/
structure Pipeline where
  device : Nat := 0
  layout : Nat := 0
  pipeline : Nat := 0
deriving DecidableEq, Repr

/-- `Renderer::Renderer` (Renderer.hpp lines 11-43).  `instance` is a Lean
keyword, so the field is called `vk_instance`. -/
structure Renderer where
  vk_instance : Nat := 0
  physical_device : Nat := 0
  device : Nat := 0
  presentation_surface : Nat := 0
  graphics_queue : QueueParameters := {}
  present_queue : QueueParameters := {}
  queue_family_indices : QueueFamilyIndices := {}
  swapchain : SwapChain := {}
  image_available_semaphore : Nat := 0
  rendering_finished_semaphore : Nat := 0
  in_flight_fence : Nat := 0
  present_queue_command_buffer : Nat := 0
  present_queue_command_pool : Nat := 0
  render_pass : Nat := 0
  graphics_pipeline : Pipeline := {}
  framebuffer_width : Nat := 0
  framebuffer_height : Nat := 0
  debug : Bool := false
deriving DecidableEq, Repr

/-- `Renderer::Renderer::is_valid` (Renderer.hpp lines 36-38):
`instance != VK_NULL_HANDLE && physical_device != VK_NULL_HANDLE
&& device != VK_NULL_HANDLE && !swapchain` (the last conjunct negates
`SwapChain`'s boolean conversion, i.e. `SwapChain::is_valid`). -/
def Renderer.is_valid (r : Renderer) : Bool :=
  r.vk_instance != 0 && r.physical_device != 0 && r.device != 0 && !(r.swapchain.is_valid)

/-- The Vulkan API calls that `begin_frame` (Renderer.cpp lines 180-238)
issues, in the order it issues them; each constructor records the arguments
the code passes. -/
inductive FrameEvent where
  | wait_for_fences (fence : Nat)
  | reset_fences (fence : Nat)
  | acquire_next_image (chain : Nat) (semaphore : Nat)
  | reset_command_buffer (buffer : Nat)
  | queue_submit (queue : Nat) (wait_semaphore : Nat) (wait_stage : Nat)
      (buffers : List Nat) (signal_semaphore : Nat) (fence : Nat)
  | queue_present_khr (queue : Nat) (wait_semaphore : Nat) (chain : Nat)
deriving DecidableEq, Repr

/-- Outcomes the GPU driver reports to one execution of `begin_frame`:
the result of `vkAcquireNextImageKHR`, whether `vkQueueSubmit` returned
`VK_SUCCESS`, and the result of `vkQueuePresentKHR`. -/
structure FrameOracle where
  acquire_result : VkResult
  submit_result : Bool
  present_result : VkResult
deriving DecidableEq, Repr

/-- `VK_PIPELINE_STAGE_COLOR_ATTACHMENT_OUTPUT_BIT` = 0x00000400. -/
def color_attachment_output_bit : Nat := 1024

/-- `begin_frame` (Renderer.cpp lines 180-238), embedded as the pair of its
boolean return value and the trace of Vulkan calls it makes.
`vkWaitForFences` is called with `VK_TRUE` and timeout `UINT64_MAX`, so it
returns only once the fence is signaled; the code ignores its result.
`VK_SUCCESS` and `VK_SUBOPTIMAL_KHR` from the acquire proceed, everything
else returns `false` early; a non-`VK_SUCCESS` submit returns `false`
after the submit call; the present switch accepts only `VK_SUCCESS`. -/
def begin_frame (r : Renderer) (o : FrameOracle) : Bool × List FrameEvent :=
  let t0 := [FrameEvent.wait_for_fences r.in_flight_fence,
             FrameEvent.reset_fences r.in_flight_fence,
             FrameEvent.acquire_next_image r.swapchain.handle r.image_available_semaphore]
  match o.acquire_result with
  | VkResult.success | VkResult.suboptimal_khr =>
    let t1 := t0 ++ [FrameEvent.reset_command_buffer r.present_queue_command_buffer,
                     FrameEvent.queue_submit r.graphics_queue.handle
                       r.image_available_semaphore color_attachment_output_bit
                       [r.present_queue_command_buffer]
                       r.rendering_finished_semaphore r.in_flight_fence]
    if !o.submit_result then
      (false, t1)
    else
      let t2 := t1 ++ [FrameEvent.queue_present_khr r.present_queue.handle
                         r.rendering_finished_semaphore r.swapchain.handle]
      match o.present_result with
      | VkResult.success => (true, t2)
      | _ => (false, t2)
  | _ => (false, t0)

/-- `draw_frame` (Renderer.cpp lines 243-246): the body is fully commented
out (`// begin_frame(renderer); // end_frame(renderer);`), so the function
changes nothing and makes no Vulkan call. -/
def draw_frame (r : Renderer) : Renderer × List FrameEvent :=
  (r, [])

/-- The main loop of `Application::run` (Application.cpp lines 43-48): run
`n` iterations of `Renderer::draw_frame`, returning the final renderer
state, the concatenated trace of Vulkan calls, and the slot index
(`swapchain.current_frame`) observed at the start of each iteration. -/
def run_loop : Nat → Renderer → Renderer × List FrameEvent × List Nat
  | 0, r => (r, [], [])
  | n + 1, r =>
    let slot := r.swapchain.current_frame
    let step := draw_frame r
    let rest := run_loop n step.1
    (rest.1, step.2 ++ rest.2.1, slot :: rest.2.2)

/-! ## Storage (Storage.hpp / Storage.cpp) -/

/-- `Storage::Buffer = std::vector<uint8_t>`; bytes modelled as `Nat`. -/
def Buffer := List Nat
deriving DecidableEq, Repr

/-- `Storage::ShaderType` (Storage.hpp lines 30-35); the source's spelling
`Fragmet` is kept. -/
inductive StShaderType where
  | Unknown
  | Vertex
  | Fragmet
  | Geometry
deriving DecidableEq, Repr

/-- `Storage::ShaderProgramInfo` (Storage.hpp lines 37-40). -/
structure ShaderProgramInfo where
  shader_type : StShaderType := StShaderType.Unknown
  shader_binary : Buffer := []
deriving DecidableEq, Repr

/-- `Storage::ImageInfo` (Storage.hpp lines 22-28). -/
structure ImageInfo where
  width : Nat := 0
  height : Nat := 0
  depth : Nat := 0
  channels : Nat := 0
  pixels : Buffer := []
deriving DecidableEq, Repr

/-- `Storage::FontInfo` (Storage.hpp lines 17-20). -/
structure FontInfo where
  charset : String := ""
  size : Nat := 0
deriving DecidableEq, Repr

/-- `Storage::ResourceInfo = std::variant<EmptyInfo, ImageInfo, FontInfo,
ShaderProgramInfo>` (Storage.hpp line 42). -/
inductive ResourceInfo where
  | empty
  | image (i : ImageInfo)
  | font (f : FontInfo)
  | shader (s : ShaderProgramInfo)
deriving DecidableEq, Repr

/-- `Storage::ResourceDesc` (Storage.hpp lines 44-59). -/
structure ResourceDesc where
  id : Nat := 0
  in_memory : Bool := false
  name : String := ""
  path : String := ""
  resource : ResourceInfo := ResourceInfo.empty
deriving DecidableEq, Repr

/-- `Storage::Asset` (Storage.hpp lines 61-66). -/
structure Asset where
  name : String := ""
  version : String := ""
  path : String := ""
  resources : List ResourceDesc := []
deriving DecidableEq, Repr

/-- `Storage::Storage` (Storage.hpp lines 68-72); the `std::atomic_bool`
is modelled as a plain `Bool` (the code is single-threaded here). -/
structure Storage where
  assets : List Asset := []
  files : List String := []
  inited : Bool := false
deriving DecidableEq, Repr

/-- A file system for `Content::read<Buffer>`: maps a path to the file's
bytes, or `none` when the file cannot be read. -/
def FileSystem := String → Option Buffer

/-- Whether the second character list is an initial segment of the
first. -/
def chars_start_with : List Char → List Char → Bool
  | _, [] => true
  | [], _ :: _ => false
  | c :: cs, p :: ps => c == p && chars_start_with cs ps

/-- Substring search over character lists. -/
def chars_contain : List Char → List Char → Bool
  | [], pat => pat.isEmpty
  | c :: cs, pat => chars_start_with (c :: cs) pat || chars_contain cs pat

/-- Substring test used to embed `std::string_view::find(pat) != npos`. -/
def has_substring (s pat : String) : Bool :=
  chars_contain s.data pat.data

/-- `get_shader_type` (Storage.cpp lines 146-156): `.vert` wins over
`.frag`; anything else is `Unknown`. -/
def get_shader_type (name : String) : StShaderType :=
  if has_substring name ".vert" then StShaderType.Vertex
  else if has_substring name ".frag" then StShaderType.Fragmet
  else StShaderType.Unknown

/-- `read_shader` (Storage.cpp lines 124-136): read the file via
`Content::read<Buffer>`; on failure return nothing, otherwise wrap the
bytes with the given shader type. -/
def read_shader (fs : FileSystem) (st : StShaderType) (path : String) :
    Option ShaderProgramInfo :=
  match fs path with
  | none => none
  | some content => some { shader_type := st, shader_binary := content }

/-- The inner resource loop of `get_shader` (Storage.cpp lines 160-175)
over one asset's `resources` vector.  Result: the updated resource list,
the returned payload (`none` embeds returning no pointer from this list),
and the number of `Content::read` calls made.  Mirrors the C++ exactly:
on an id match with `!in_memory` the file is read (counted even when the
read fails) and on success the variant is replaced — but `in_memory` is
never written; if the variant then holds a `ShaderProgramInfo` its payload
is returned, otherwise the loop continues with the remaining resources. -/
def get_shader_in_resources (fs : FileSystem) (rid : Nat) :
    List ResourceDesc → List ResourceDesc × Option ShaderProgramInfo × Nat
  | [] => ([], none, 0)
  | r :: rest =>
    if r.id = rid then
      let step : ResourceDesc × Nat :=
        if !r.in_memory then
          match read_shader fs (get_shader_type r.name) r.path with
          | some sh => ({ r with resource := ResourceInfo.shader sh }, 1)
          | none => (r, 1)
        else (r, 0)
      match step.1.resource with
      | ResourceInfo.shader p => (step.1 :: rest, some p, step.2)
      | _ =>
        let tail := get_shader_in_resources fs rid rest
        (step.1 :: tail.1, tail.2.1, step.2 + tail.2.2)
    else
      let tail := get_shader_in_resources fs rid rest
      (r :: tail.1, tail.2.1, tail.2.2)

/-- The outer asset loop of `get_shader` (Storage.cpp lines 160-175). -/
def get_shader_in_assets (fs : FileSystem) (rid : Nat) :
    List Asset → List Asset × Option ShaderProgramInfo × Nat
  | [] => ([], none, 0)
  | a :: rest =>
    let inner := get_shader_in_resources fs rid a.resources
    match inner.2.1 with
    | some p => ({ a with resources := inner.1 } :: rest, some p, inner.2.2)
    | none =>
      let tail := get_shader_in_assets fs rid rest
      ({ a with resources := inner.1 } :: tail.1, tail.2.1, inner.2.2 + tail.2.2)

/-- `get_shader` (Storage.cpp lines 158-178): scan all assets' resources
for `resource_id`; returns the updated storage (the C++ mutates it in
place), the payload the returned pointer refers to (`none` for the final
`return nullptr`), and the number of file reads performed. -/
def get_shader (fs : FileSystem) (s : Storage) (rid : Nat) :
    Storage × Option ShaderProgramInfo × Nat :=
  let scan := get_shader_in_assets fs rid s.assets
  ({ s with assets := scan.1 }, scan.2.1, scan.2.2)

/-- The payload a scan of the stored descriptors would return without any
file access: the `ShaderProgramInfo` held by the first resource whose id
matches and whose variant currently holds a shader (the loop of
Storage.cpp lines 161-174 when every read fails). -/
def stored_payload_in_resources (rid : Nat) :
    List ResourceDesc → Option ShaderProgramInfo
  | [] => none
  | r :: rest =>
    if r.id = rid then
      match r.resource with
      | ResourceInfo.shader p => some p
      | _ => stored_payload_in_resources rid rest
    else stored_payload_in_resources rid rest

/-- Asset-level version of `stored_payload_in_resources`. -/
def stored_payload_in_assets (rid : Nat) : List Asset → Option ShaderProgramInfo
  | [] => none
  | a :: rest =>
    match stored_payload_in_resources rid a.resources with
    | some p => some p
    | none => stored_payload_in_assets rid rest

/-! ## `Storage::open` (Storage.cpp lines 57-118) -/

/-- One entry produced by a `std::filesystem` directory iteration: its full
path, its filename, the filename's extension, and whether it is a regular
file. -/
structure DirEntry where
  path : String := ""
  filename : String := ""
  extension : String := ""
  is_regular_file : Bool := true
deriving DecidableEq, Repr

/-- One root path handed to `Storage::open`, together with what the file
system says about it: whether it exists, whether it is a directory, the
entries `fs::directory_iterator` yields (direct children) and the entries
`fs::recursive_directory_iterator` yields. -/
structure RootPath where
  name : String := ""
  present : Bool := false
  is_directory : Bool := false
  entries : List DirEntry := []
  rec_entries : List DirEntry := []
deriving DecidableEq, Repr

/-- `std::filesystem_error`: thrown (among other places) by constructing a
`recursive_directory_iterator` on a path that does not exist or is not a
directory. -/
inductive FsError where
  | filesystem_error (path : String)
deriving DecidableEq, Repr

/-- `read_asset` (Storage.cpp lines 32-34): a stub that registers nothing
and always reports success. -/
def read_asset (_s : Storage) (_path : String) : Bool :=
  true

/-- `is_asset_file` (Storage.cpp lines 36-46): whether some already
registered resource carries this filename. -/
def is_asset_file (s : Storage) (name : String) : Bool :=
  s.assets.any fun a => a.resources.any fun r => r.name == name

/-- `is_shader` (Storage.cpp lines 48-55): extension equals `.spv`. -/
def is_shader (extension : String) : Bool :=
  extension == ".spv"

/-- First loop of `open` (Storage.cpp lines 62-77): for each root that
exists and is a directory, call `read_asset` on every `.asset` entry,
or-ing the results into `any_read`; a missing root is logged and skipped;
an existing regular file is a `TODO` (no effect). -/
def scan_asset_roots (s : Storage) (roots : List RootPath) : Bool :=
  roots.foldl
    (fun acc root =>
      if root.present then
        if root.is_directory then
          root.entries.foldl
            (fun a e => if e.extension = ".asset" then (a || read_asset s e.path) else a)
            acc
        else acc
      else acc)
    false

/-- `files.emplace(filename, path)` on the `std::unordered_map`: insert
only when no entry with this filename exists yet.  (The map's iteration
order is unspecified; this embedding fixes it to insertion order, which no
claim depends on.) -/
def emplace_file (files : List DirEntry) (e : DirEntry) : List DirEntry :=
  if files.any (fun f => f.filename == e.filename) then files else files ++ [e]

/-- Second loop of `open` (Storage.cpp lines 80-93): for every root,
iterate `fs::recursive_directory_iterator(name)` — which throws
`std::filesystem_error` when the root does not exist or is not a
directory, because this loop, unlike the first, performs no `fs::exists`
check — and collect every regular file not already known to an asset. -/
def collect_files (s : Storage) (roots : List RootPath) :
    Except FsError (List DirEntry) :=
  roots.foldlM
    (fun files root =>
      if !root.present || !root.is_directory then
        Except.error (FsError.filesystem_error root.name)
      else
        Except.ok (root.rec_entries.foldl
          (fun fl e =>
            if e.is_regular_file then
              if is_asset_file s e.filename then fl else emplace_file fl e
            else fl)
          files))
    []

/-- `open` (Storage.cpp lines 57-118).  The external `XXH64` hash behind
`get_resource_id<ShaderProgramInfo>` is passed in as `hash` (the code
hashes the string `"shader:" ++ name` with seed 123).  Registered shader
resources carry a default-constructed `ShaderProgramInfo` variant, with
`in_memory = false`.  The return value embeds the C++ `bool`:
`any_read || !storage.assets.empty()`; an uncaught `filesystem_error`
from the second loop is the `Except.error` case. -/
def open_storage (hash : String → Nat) (s : Storage) (roots : List RootPath) :
    Except FsError (Storage × Bool) :=
  let any_read := scan_asset_roots s roots
  match collect_files s roots with
  | Except.error e => Except.error e
  | Except.ok files =>
    let s1 :=
      if files.isEmpty then s
      else
        let new_resources := files.foldl
          (fun rs e =>
            if is_shader e.extension then
              rs ++ [{ id := hash ("shader:" ++ e.filename), in_memory := false,
                       name := e.filename, path := e.path,
                       resource := ResourceInfo.shader {} : ResourceDesc }]
            else rs)
          []
        if new_resources.isEmpty then s
        else { s with assets := s.assets ++
                 [{ name := "General", version := "1.0", path := "",
                    resources := new_resources }] }
    Except.ok (s1, any_read || !s1.assets.isEmpty)

/-! ## `Vulkan::destroy_swapchain` (Vulkan.cpp lines 716-738) -/

/-- The `vkDestroy*` calls `destroy_swapchain` can make, with the handle
each call receives.  `destroy_image` never occurs in its trace: the
chain's images belong to the presentation engine. -/
inductive DestroyEvent where
  | destroy_semaphore (h : Nat)
  | destroy_fence (h : Nat)
  | destroy_render_pass (h : Nat)
  | destroy_framebuffer (h : Nat)
  | destroy_image_view (h : Nat)
  | destroy_swapchain_khr (h : Nat)
  | destroy_image (h : Nat)
deriving DecidableEq, Repr

/-- `destroy_swapchain` (Vulkan.cpp lines 716-738), embedded as its trace
of destruction calls in program order: the per-frame semaphores and
fences, then the render pass, then every framebuffer, then every image
view, then the swapchain handle. -/
def destroy_swapchain (sc : SwapChain) : List DestroyEvent :=
  sc.image_available_semaphores.map DestroyEvent.destroy_semaphore
    ++ sc.render_finished_semaphores.map DestroyEvent.destroy_semaphore
    ++ sc.in_flight_fences.map DestroyEvent.destroy_fence
    ++ [DestroyEvent.destroy_render_pass sc.render_pass]
    ++ sc.framebuffes.map DestroyEvent.destroy_framebuffer
    ++ sc.views.map DestroyEvent.destroy_image_view
    ++ [DestroyEvent.destroy_swapchain_khr sc.handle]

/-! ## `Vulkan::create_graphics_pipeline` (Vulkan.cpp lines 759-884) -/

/-- `Vulkan::ShaderInfo` (Vulkan.hpp lines 62-65). -/
structure ShaderInfo where
  shader_type : StShaderType := StShaderType.Unknown
  shader_binary : Buffer := []
deriving DecidableEq, Repr

/-- Driver outcomes for one `create_graphics_pipeline` call: whether the
`i`-th `vkCreateShaderModule` call returns a module (`create_shader`
returns `VK_NULL_HANDLE` on failure), whether `vkCreatePipelineLayout`
succeeds, and whether `vkCreateGraphicsPipelines` succeeds. -/
structure PipelineOracle where
  module_created : Nat → Bool
  layout_created : Bool
  pipeline_created : Bool

/-- The `VkShaderStageFlagBits` value the stage-selection chain of
Vulkan.cpp lines 774-780 assigns; an `Unknown` type matches no branch and
leaves the zero-initialized value. -/
def stage_flag : StShaderType → Nat
  | StShaderType.Vertex => 1
  | StShaderType.Fragmet => 16
  | StShaderType.Geometry => 8
  | StShaderType.Unknown => 0

/-- The shader-module loop of Vulkan.cpp lines 762-786, collecting the
`stage` fields of the `shader_stage_create_infos` vector.  When the `i`-th
module creation fails the loop `continue`s: that shader contributes no
stage and the build goes on with the rest. -/
def collect_stage_infos (o : PipelineOracle) : Nat → List ShaderInfo → List Nat
  | _, [] => []
  | i, s :: rest =>
    if o.module_created i then
      stage_flag s.shader_type :: collect_stage_infos o (i + 1) rest
    else
      collect_stage_infos o (i + 1) rest

/-- The stage list handed to `vkCreateGraphicsPipelines` by a successful
build (its `stageCount` is this list's length). -/
structure BuiltPipeline where
  stages : List Nat
deriving DecidableEq, Repr

/-- `create_graphics_pipeline` (Vulkan.cpp lines 759-884): run the module
loop, then create the layout and the pipeline; either creation failure
returns the default `Pipeline {}` (embedded as `none`), success returns
the pipeline built from the collected stages. -/
def create_graphics_pipeline (o : PipelineOracle) (shaders : List ShaderInfo) :
    Option BuiltPipeline :=
  let stage_infos := collect_stage_infos o 0 shaders
  if !o.layout_created then none
  else if !o.pipeline_created then none
  else some { stages := stage_infos }

/-! ## Concrete states used to evaluate the embedding -/

/-- A renderer state with distinct non-null handles, as produced by a
successful `create_renderer`. -/
def r1w : Renderer :=
  { vk_instance := 1, physical_device := 2, device := 3,
    graphics_queue := { handle := 11 }, present_queue := { handle := 12 },
    swapchain := { handle := 9 }, image_available_semaphore := 5,
    rendering_finished_semaphore := 6, in_flight_fence := 42,
    present_queue_command_buffer := 7 }

/-- A frame execution in which every driver call succeeds. -/
def o1w : FrameOracle :=
  { acquire_result := VkResult.success, submit_result := true,
    present_result := VkResult.success }

/-- A second concrete renderer state, for the submission claim. -/
def r3w : Renderer :=
  { vk_instance := 1, physical_device := 2, device := 3,
    graphics_queue := { handle := 21 }, present_queue := { handle := 22 },
    swapchain := { handle := 19 }, image_available_semaphore := 15,
    rendering_finished_semaphore := 16, in_flight_fence := 52,
    present_queue_command_buffer := 17 }

/-- A frame execution that fails only at presentation. -/
def o3w : FrameOracle :=
  { acquire_result := VkResult.suboptimal_khr, submit_result := true,
    present_result := VkResult.error_out_of_date_khr }

/-- The scenario of the round-robin claim: a renderer whose swapchain was
created with two frames in flight, at slot index 0. -/
def r2b : Renderer :=
  { vk_instance := 1, physical_device := 2, device := 3,
    swapchain := { handle := 9, max_frames_in_flight := 2, current_frame := 0,
                   image_available_semaphores := [31, 32],
                   render_finished_semaphores := [33, 34],
                   in_flight_fences := [35, 36] } }

/-- A renderer whose creation succeeded end to end: non-null instance,
physical device, device, and swapchain handles. -/
def r9w : Renderer :=
  { vk_instance := 1, physical_device := 2, device := 3,
    swapchain := { handle := 4 } }

/-- A storage holding one registered shader resource, exactly as
`Storage::open` registers it: `in_memory = false` and a
default-constructed `ShaderProgramInfo` variant. -/
def s4 : Storage :=
  { assets := [{ name := "General", version := "1.0", path := "",
                 resources := [{ id := 1, in_memory := false,
                                 name := "Base.frag.spv", path := "A/Base.frag.spv",
                                 resource := ResourceInfo.shader {} }] }] }

/-- A file system on which the registered shader's file is readable. -/
def fs4 : FileSystem :=
  fun p => if p = "A/Base.frag.spv" then some [3, 2, 2, 7] else none

/-- A storage identical in shape to `s4`, for the error-handling claim. -/
def s5 : Storage :=
  { assets := [{ name := "General", version := "1.0", path := "",
                 resources := [{ id := 1, in_memory := false,
                                 name := "Base.frag.spv", path := "B/Base.frag.spv",
                                 resource := ResourceInfo.shader {} }] }] }

/-- A file system on which no file can be read. -/
def fs5 : FileSystem :=
  fun _ => none

/-- An empty storage, in which no identifier is registered. -/
def s5w : Storage :=
  {}

/-- The root-path list `Application::run` passes (`{ "../Assets" }`) when
that directory does not exist on disk. -/
def roots6 : List RootPath :=
  [{ name := "../Assets", present := false, is_directory := false,
     entries := [], rec_entries := [] }]

/-- A stand-in for the external `XXH64` hash (its values are irrelevant to
the open-failure claim). -/
def hash6 : String → Nat :=
  fun _ => 0

/-- A swapchain with one framebuffer, one image view, one image, and
distinct handles, after device-idle. -/
def sc7 : SwapChain :=
  { handle := 3, render_pass := 5, images := [8], views := [7],
    framebuffes := [10] }

/-- A swapchain that additionally owns one per-frame semaphore pair and
one fence, so every destruction stage is populated. -/
def sc7w : SwapChain :=
  { handle := 3, render_pass := 5, images := [8], views := [7],
    framebuffes := [10], image_available_semaphores := [11],
    render_finished_semaphores := [12], in_flight_fences := [13] }

/-- Two supplied shader stages: a vertex and a fragment shader. -/
def shaders8 : List ShaderInfo :=
  [{ shader_type := StShaderType.Vertex, shader_binary := [1] },
   { shader_type := StShaderType.Fragmet, shader_binary := [2] }]

/-- A driver on which the first `vkCreateShaderModule` call fails and
everything else succeeds. -/
def o8 : PipelineOracle :=
  { module_created := fun i => i != 0, layout_created := true,
    pipeline_created := true }

/-- A driver on which `vkCreatePipelineLayout` fails. -/
def o8w : PipelineOracle :=
  { module_created := fun _ => true, layout_created := false,
    pipeline_created := true }

/-! ## Helper lemmas -/

lemma run_loop_eq (n : Nat) (r : Renderer) :
    run_loop n r = (r, [], List.replicate n r.swapchain.current_frame) := by
  induction n with
  | zero => rfl
  | succ n ih => simp [run_loop, draw_frame, ih, List.replicate]

lemma begin_frame_head (r : Renderer) (o : FrameOracle) :
    (begin_frame r o).2[0]? = some (FrameEvent.wait_for_fences r.in_flight_fence) := by
  rcases o with ⟨ar, sr, pr⟩
  cases ar <;> cases sr <;> cases pr <;> rfl

/-! ## Claims about the frame protocol -/

/-- Claim C1: in every execution of the per-frame protocol
(`begin_frame`), the wait on the frame-complete fence strictly precedes
any reset of the command buffer: whenever the trace holds a
`reset_command_buffer` call at position `i`, the wait on the slot's fence
occurs at an earlier position. -/
theorem c1_fence_wait_precedes_buffer_reset (r : Renderer) (o : FrameOracle)
    (i : Nat) (buf : Nat)
    (h : (begin_frame r o).2[i]? = some (FrameEvent.reset_command_buffer buf)) :
    ∃ j, j < i ∧ (begin_frame r o).2[j]? =
      some (FrameEvent.wait_for_fences r.in_flight_fence) := by
  refine ⟨0, ?_, begin_frame_head r o⟩
  rcases i with _ | i
  · rw [begin_frame_head r o] at h
    simp at h
  · omega

/-- Witness for C1 at a concrete renderer and a fully successful frame:
the reset at trace position 3 is preceded by the fence wait. -/
theorem c1_witness :
    ∃ j, j < 3 ∧ (begin_frame r1w o1w).2[j]? =
      some (FrameEvent.wait_for_fences r1w.in_flight_fence) :=
  c1_fence_wait_precedes_buffer_reset r1w o1w 3 7 (by rfl)

/-- Claim C3: every queue submission the frame protocol makes waits on the
slot's image-acquired semaphore gated at the color-attachment-output
stage, submits exactly the one command buffer of the slot to the graphics
queue, and signals the slot's rendering-finished semaphore together with
the slot's frame-complete fence. -/
theorem c3_submission_shape (r : Renderer) (o : FrameOracle) (i : Nat)
    (q ws stg : Nat) (bufs : List Nat) (ss f : Nat)
    (h : (begin_frame r o).2[i]? =
      some (FrameEvent.queue_submit q ws stg bufs ss f)) :
    q = r.graphics_queue.handle ∧ ws = r.image_available_semaphore
    ∧ stg = color_attachment_output_bit
    ∧ bufs = [r.present_queue_command_buffer]
    ∧ ss = r.rendering_finished_semaphore ∧ f = r.in_flight_fence := by
  have hm : FrameEvent.queue_submit q ws stg bufs ss f ∈ (begin_frame r o).2 :=
    List.getElem?_mem h
  rcases o with ⟨ar, sr, pr⟩
  cases ar <;> cases sr <;> cases pr <;>
    simp [begin_frame] at hm <;>
    exact hm

/-- Witness for C3: the submission recorded at trace position 4 of a
concrete frame execution carries exactly the handles of renderer `r3w`. -/
theorem c3_witness :
    21 = r3w.graphics_queue.handle ∧ 15 = r3w.image_available_semaphore
    ∧ 1024 = color_attachment_output_bit
    ∧ [17] = [r3w.present_queue_command_buffer]
    ∧ 16 = r3w.rendering_finished_semaphore ∧ 52 = r3w.in_flight_fence :=
  c3_submission_shape r3w o3w 4 21 15 1024 [17] 16 52 (by rfl)

/-- Claim C2, evaluated at its own scenario (frame count 2, five loop
iterations): because `draw_frame` (Renderer.cpp lines 243-246) has its
body commented out, the slot index observed by the five iterations is
`0,0,0,0,0` — not the claimed round-robin `0,1,0,1,0` — the renderer
state is unchanged, and no fence wait (indeed no Vulkan call at all)
occurs. -/
theorem c2_slot_index_never_advances :
    (run_loop 5 r2b).2.2 = [0, 0, 0, 0, 0]
    ∧ (run_loop 5 r2b).2.1 = []
    ∧ (run_loop 5 r2b).1 = r2b
    ∧ r2b.swapchain.max_frames_in_flight = 2
    ∧ [0, 0, 0, 0, 0] ≠ ([0, 1, 0, 1, 0] : List Nat) :=
  ⟨rfl, rfl, rfl, rfl, by decide⟩

/-- Claim C9: `Renderer::is_valid` returns `true` only when the swapchain
handle is null, and a renderer whose instance, physical device, device and
swapchain handles are all non-null is reported invalid. -/
theorem c9_is_valid_requires_null_swapchain (r : Renderer) :
    (r.is_valid = true → r.swapchain.handle = 0)
    ∧ (r.vk_instance ≠ 0 → r.physical_device ≠ 0 → r.device ≠ 0 →
        r.swapchain.handle ≠ 0 → r.is_valid = false) := by
  constructor
  · intro h
    simp [Renderer.is_valid, SwapChain.is_valid] at h
    exact h.2
  · intro h1 h2 h3 h4
    simp [Renderer.is_valid, SwapChain.is_valid, h1, h2, h3, h4]

/-- Witness for C9: the fully created renderer `r9w` (all handles
non-null) is reported invalid by `is_valid`. -/
theorem c9_witness : r9w.is_valid = false :=
  (c9_is_valid_requires_null_swapchain r9w).2 (by decide) (by decide) (by decide)
    (by decide)

/-- Claim C10: `draw_frame` is the identity on the renderer state and
performs no Vulkan operation, so after any number of main-loop iterations
the renderer (every field of it) is unchanged and the accumulated trace of
acquire/submit/present calls is empty. -/
theorem c10_draw_frame_is_identity (r : Renderer) (n : Nat) :
    draw_frame r = (r, []) ∧ (run_loop n r).1 = r ∧ (run_loop n r).2.1 = [] := by
  refine ⟨rfl, ?_, ?_⟩ <;> simp [run_loop_eq]

/-! ## Claims about the storage -/

lemma get_shader_in_resources_no_match (fs : FileSystem) (rid : Nat)
    (rs : List ResourceDesc) (h : ∀ r ∈ rs, r.id ≠ rid) :
    get_shader_in_resources fs rid rs = (rs, none, 0) := by
  induction rs with
  | nil => rfl
  | cons r rest ih =>
    have hr : ¬ r.id = rid := h r (by simp)
    simp [get_shader_in_resources, hr, ih fun x hx => h x (by simp [hx])]

lemma get_shader_in_assets_no_match (fs : FileSystem) (rid : Nat)
    (as' : List Asset) (h : ∀ a ∈ as', ∀ r ∈ a.resources, r.id ≠ rid) :
    get_shader_in_assets fs rid as' = (as', none, 0) := by
  induction as' with
  | nil => rfl
  | cons a rest ih =>
    have h1 := get_shader_in_resources_no_match fs rid a.resources (h a (by simp))
    simp [get_shader_in_assets, h1, ih fun x hx => h x (by simp [hx])]

lemma get_shader_in_resources_unreadable (fs : FileSystem) (rid : Nat)
    (hfs : ∀ p, fs p = none) (rs : List ResourceDesc) :
    (get_shader_in_resources fs rid rs).1 = rs
    ∧ (get_shader_in_resources fs rid rs).2.1 = stored_payload_in_resources rid rs := by
  induction rs with
  | nil => exact ⟨rfl, rfl⟩
  | cons r rest ih =>
    by_cases hid : r.id = rid
    · have hread : read_shader fs (get_shader_type r.name) r.path = none := by
        simp [read_shader, hfs]
      cases hmem : r.in_memory <;>
        cases hres : r.resource <;>
          simp [get_shader_in_resources, stored_payload_in_resources, hid, hmem,
            hres, hread, ih.1, ih.2]
    · simp [get_shader_in_resources, stored_payload_in_resources, hid, ih.1, ih.2]

lemma get_shader_in_assets_unreadable (fs : FileSystem) (rid : Nat)
    (hfs : ∀ p, fs p = none) (as' : List Asset) :
    (get_shader_in_assets fs rid as').1 = as'
    ∧ (get_shader_in_assets fs rid as').2.1 = stored_payload_in_assets rid as' := by
  induction as' with
  | nil => exact ⟨rfl, rfl⟩
  | cons a rest ih =>
    have h1 := get_shader_in_resources_unreadable fs rid hfs a.resources
    cases hsp : stored_payload_in_resources rid a.resources <;>
      simp [get_shader_in_assets, stored_payload_in_assets, h1.1, h1.2, hsp,
        ih.1, ih.2]

/-- Claim C4, evaluated at its failing input (a registered shader whose
file is readable): the first `get_shader` does load and cache the payload,
but the `in_memory` flag — which the code tests and never sets — stays
`false`, so a second `get_shader` for the same identifier performs another
file read (read count 1 again) instead of the claimed zero. -/
theorem c4_cache_flag_never_set :
    (get_shader fs4 s4 1).2.1 =
        some { shader_type := StShaderType.Fragmet, shader_binary := [3, 2, 2, 7] }
    ∧ (get_shader fs4 s4 1).2.2 = 1
    ∧ ((get_shader fs4 s4 1).1.assets.map fun a =>
          a.resources.map fun r => r.in_memory) = [[false]]
    ∧ (get_shader fs4 (get_shader fs4 s4 1).1 1).2.2 = 1 :=
  ⟨rfl, rfl, rfl, rfl⟩

/-- Claim C5 as amended: with no matching descriptor, `get_shader` returns
an empty result, reads no file, and leaves the storage unchanged; when no
file can be read, `get_shader` leaves the storage unchanged (hence usable)
and returns the payload currently stored in the first matching shader
descriptor — the default-constructed empty payload that registration put
there — rather than an empty result. -/
theorem c5_lookup_error_handling (fs : FileSystem) (s : Storage) (rid : Nat) :
    ((∀ a ∈ s.assets, ∀ r ∈ a.resources, r.id ≠ rid) →
      get_shader fs s rid = (s, none, 0))
    ∧ ((∀ p, fs p = none) →
      (get_shader fs s rid).1 = s
      ∧ (get_shader fs s rid).2.1 = stored_payload_in_assets rid s.assets) := by
  constructor
  · intro h
    simp [get_shader, get_shader_in_assets_no_match fs rid s.assets h]
  · intro hfs
    have h1 := get_shader_in_assets_unreadable fs rid hfs s.assets
    exact ⟨by simp [get_shader, h1.1], by simp [get_shader, h1.2]⟩

/-- Counterexample to C5 as stated: on a storage holding one registered
shader whose backing file cannot be read, `get_shader` does not return an
empty result — it returns the default-constructed payload stored at
registration (a non-null pointer in the C++). -/
theorem c5_counterexample :
    fs5 "B/Base.frag.spv" = none
    ∧ (get_shader fs5 s5 1).2.1 =
        some { shader_type := StShaderType.Unknown, shader_binary := [] } :=
  ⟨rfl, rfl⟩

/-- Witness for C5: on the empty storage no identifier matches, and the
lookup returns the empty result with zero reads, leaving the storage
unchanged. -/
theorem c5_witness : get_shader fs5 s5w 99 = (s5w, none, 0) :=
  (c5_lookup_error_handling fs5 s5w 99).1 (by intro a ha; simp [s5w] at ha)

/-- Claim C6, evaluated at its failing input (the root list
`{ "../Assets" }` of `Application::run` with that directory missing): the
first loop of `open` skips the missing root as the claim says (no assets
read), but the second loop constructs `fs::recursive_directory_iterator`
on it without any existence check, so `open` escapes with an uncaught
`std::filesystem_error` instead of skipping and reporting not-found. -/
theorem c6_missing_root_throws :
    scan_asset_roots {} roots6 = false
    ∧ open_storage hash6 {} roots6 =
        Except.error (FsError.filesystem_error "../Assets") :=
  ⟨rfl, rfl⟩

/-! ## Claims about swapchain destruction -/

lemma append_segment_lt {α : Type} {L1 L2 : List α} {p q : α → Prop}
    (h1 : ∀ e ∈ L2, ¬ p e) (h2 : ∀ e ∈ L1, ¬ q e)
    {i j : Nat} {e1 e2 : α} (hi : (L1 ++ L2)[i]? = some e1) (hp : p e1)
    (hj : (L1 ++ L2)[j]? = some e2) (hq : q e2) : i < j := by
  rcases Nat.lt_or_ge i L1.length with hil | hil
  · rcases Nat.lt_or_ge j L1.length with hjl | hjl
    · rw [List.getElem?_append, if_pos hjl] at hj
      exact absurd hq (h2 e2 (List.getElem?_mem hj))
    · omega
  · rw [List.getElem?_append, if_neg (by omega)] at hi
    exact absurd hp (h1 e1 (List.getElem?_mem hi))

/-- Claim C7 as amended: `destroy_swapchain` releases the per-frame
semaphores and fences first (every semaphore and fence destruction
precedes the render pass destruction, and hence everything after it),
then the render-target pass description, then all framebuffers, then the
image views, then the chain handle — the pass comes before the
framebuffers, not after them as claimed — and the chain's images are
never explicitly freed. -/
theorem c7_destruction_order (sc : SwapChain) :
    (∀ (i j a b : Nat),
       (destroy_swapchain sc)[i]? = some (DestroyEvent.destroy_semaphore a) →
       (destroy_swapchain sc)[j]? = some (DestroyEvent.destroy_render_pass b) →
       i < j)
    ∧ (∀ (i j a b : Nat),
       (destroy_swapchain sc)[i]? = some (DestroyEvent.destroy_fence a) →
       (destroy_swapchain sc)[j]? = some (DestroyEvent.destroy_render_pass b) →
       i < j)
    ∧ (∀ (i j a b : Nat),
       (destroy_swapchain sc)[i]? = some (DestroyEvent.destroy_render_pass a) →
       (destroy_swapchain sc)[j]? = some (DestroyEvent.destroy_framebuffer b) →
       i < j)
    ∧ (∀ (i j a b : Nat),
       (destroy_swapchain sc)[i]? = some (DestroyEvent.destroy_framebuffer a) →
       (destroy_swapchain sc)[j]? = some (DestroyEvent.destroy_image_view b) →
       i < j)
    ∧ (∀ (i j a b : Nat),
       (destroy_swapchain sc)[i]? = some (DestroyEvent.destroy_image_view a) →
       (destroy_swapchain sc)[j]? = some (DestroyEvent.destroy_swapchain_khr b) →
       i < j)
    ∧ (∀ e ∈ destroy_swapchain sc, ∀ a, e ≠ DestroyEvent.destroy_image a) := by
  refine ⟨?_, ?_, ?_, ?_, ?_, ?_⟩
  · intro i j a b hi hj
    have hsplit : destroy_swapchain sc =
        (sc.image_available_semaphores.map DestroyEvent.destroy_semaphore
          ++ sc.render_finished_semaphores.map DestroyEvent.destroy_semaphore
          ++ sc.in_flight_fences.map DestroyEvent.destroy_fence)
        ++ ([DestroyEvent.destroy_render_pass sc.render_pass]
          ++ sc.framebuffes.map DestroyEvent.destroy_framebuffer
          ++ sc.views.map DestroyEvent.destroy_image_view
          ++ [DestroyEvent.destroy_swapchain_khr sc.handle]) := by
      simp [destroy_swapchain]
    rw [hsplit] at hi hj
    refine append_segment_lt (p := fun e => e = DestroyEvent.destroy_semaphore a)
      (q := fun e => e = DestroyEvent.destroy_render_pass b) ?_ ?_ hi rfl hj rfl
    · intro e he
      simp only [List.mem_append, List.mem_map, List.mem_singleton] at he
      rcases he with ((rfl | ⟨x, _, rfl⟩) | ⟨x, _, rfl⟩) | rfl <;> simp
    · intro e he
      simp only [List.mem_append, List.mem_map, List.mem_singleton] at he
      rcases he with (⟨x, _, rfl⟩ | ⟨x, _, rfl⟩) | ⟨x, _, rfl⟩ <;> simp
  · intro i j a b hi hj
    have hsplit : destroy_swapchain sc =
        (sc.image_available_semaphores.map DestroyEvent.destroy_semaphore
          ++ sc.render_finished_semaphores.map DestroyEvent.destroy_semaphore
          ++ sc.in_flight_fences.map DestroyEvent.destroy_fence)
        ++ ([DestroyEvent.destroy_render_pass sc.render_pass]
          ++ sc.framebuffes.map DestroyEvent.destroy_framebuffer
          ++ sc.views.map DestroyEvent.destroy_image_view
          ++ [DestroyEvent.destroy_swapchain_khr sc.handle]) := by
      simp [destroy_swapchain]
    rw [hsplit] at hi hj
    refine append_segment_lt (p := fun e => e = DestroyEvent.destroy_fence a)
      (q := fun e => e = DestroyEvent.destroy_render_pass b) ?_ ?_ hi rfl hj rfl
    · intro e he
      simp only [List.mem_append, List.mem_map, List.mem_singleton] at he
      rcases he with ((rfl | ⟨x, _, rfl⟩) | ⟨x, _, rfl⟩) | rfl <;> simp
    · intro e he
      simp only [List.mem_append, List.mem_map, List.mem_singleton] at he
      rcases he with (⟨x, _, rfl⟩ | ⟨x, _, rfl⟩) | ⟨x, _, rfl⟩ <;> simp
  · intro i j a b hi hj
    have hsplit : destroy_swapchain sc =
        (sc.image_available_semaphores.map DestroyEvent.destroy_semaphore
          ++ sc.render_finished_semaphores.map DestroyEvent.destroy_semaphore
          ++ sc.in_flight_fences.map DestroyEvent.destroy_fence
          ++ [DestroyEvent.destroy_render_pass sc.render_pass])
        ++ (sc.framebuffes.map DestroyEvent.destroy_framebuffer
          ++ sc.views.map DestroyEvent.destroy_image_view
          ++ [DestroyEvent.destroy_swapchain_khr sc.handle]) := by
      simp [destroy_swapchain]
    rw [hsplit] at hi hj
    refine append_segment_lt (p := fun e => e = DestroyEvent.destroy_render_pass a)
      (q := fun e => e = DestroyEvent.destroy_framebuffer b) ?_ ?_ hi rfl hj rfl
    · intro e he
      simp only [List.mem_append, List.mem_map, List.mem_singleton] at he
      rcases he with (⟨x, _, rfl⟩ | ⟨x, _, rfl⟩) | rfl <;> simp
    · intro e he
      simp only [List.mem_append, List.mem_map, List.mem_singleton] at he
      rcases he with ((⟨x, _, rfl⟩ | ⟨x, _, rfl⟩) | ⟨x, _, rfl⟩) | rfl <;> simp
  · intro i j a b hi hj
    have hsplit : destroy_swapchain sc =
        (sc.image_available_semaphores.map DestroyEvent.destroy_semaphore
          ++ sc.render_finished_semaphores.map DestroyEvent.destroy_semaphore
          ++ sc.in_flight_fences.map DestroyEvent.destroy_fence
          ++ [DestroyEvent.destroy_render_pass sc.render_pass]
          ++ sc.framebuffes.map DestroyEvent.destroy_framebuffer)
        ++ (sc.views.map DestroyEvent.destroy_image_view
          ++ [DestroyEvent.destroy_swapchain_khr sc.handle]) := by
      simp [destroy_swapchain]
    rw [hsplit] at hi hj
    refine append_segment_lt (p := fun e => e = DestroyEvent.destroy_framebuffer a)
      (q := fun e => e = DestroyEvent.destroy_image_view b) ?_ ?_ hi rfl hj rfl
    · intro e he
      simp only [List.mem_append, List.mem_map, List.mem_singleton] at he
      rcases he with ⟨x, _, rfl⟩ | rfl <;> simp
    · intro e he
      simp only [List.mem_append, List.mem_map, List.mem_singleton] at he
      rcases he with (((⟨x, _, rfl⟩ | ⟨x, _, rfl⟩) | ⟨x, _, rfl⟩) | rfl) | ⟨x, _, rfl⟩ <;>
        simp
  · intro i j a b hi hj
    have hsplit : destroy_swapchain sc =
        (sc.image_available_semaphores.map DestroyEvent.destroy_semaphore
          ++ sc.render_finished_semaphores.map DestroyEvent.destroy_semaphore
          ++ sc.in_flight_fences.map DestroyEvent.destroy_fence
          ++ [DestroyEvent.destroy_render_pass sc.render_pass]
          ++ sc.framebuffes.map DestroyEvent.destroy_framebuffer
          ++ sc.views.map DestroyEvent.destroy_image_view)
        ++ [DestroyEvent.destroy_swapchain_khr sc.handle] := by
      simp [destroy_swapchain]
    rw [hsplit] at hi hj
    refine append_segment_lt (p := fun e => e = DestroyEvent.destroy_image_view a)
      (q := fun e => e = DestroyEvent.destroy_swapchain_khr b) ?_ ?_ hi rfl hj rfl
    · intro e he
      simp only [List.mem_singleton] at he
      subst he; simp
    · intro e he
      simp only [List.mem_append, List.mem_map, List.mem_singleton] at he
      rcases he with
        ((((⟨x, _, rfl⟩ | ⟨x, _, rfl⟩) | ⟨x, _, rfl⟩) | rfl) | ⟨x, _, rfl⟩) | ⟨x, _, rfl⟩ <;>
        simp
  · intro e he a
    simp only [destroy_swapchain, List.mem_append, List.mem_map, List.mem_singleton] at he
    rcases he with
      ((((((⟨x, _, rfl⟩ | ⟨x, _, rfl⟩) | ⟨x, _, rfl⟩) | rfl) | ⟨x, _, rfl⟩) | ⟨x, _, rfl⟩) | rfl) <;>
      simp

/-- Counterexample to C7 as stated: on the concrete swapchain `sc7` the
framebuffer at trace position 1 is destroyed after the render pass at
position 0, so framebuffer destruction does not precede release of the
pass description. -/
theorem c7_counterexample :
    ¬ ∀ (i j a b : Nat),
        (destroy_swapchain sc7)[i]? = some (DestroyEvent.destroy_framebuffer a) →
        (destroy_swapchain sc7)[j]? = some (DestroyEvent.destroy_render_pass b) →
        i < j := by
  intro h
  exact absurd (h 1 0 10 5 rfl rfl) (by omega)

/-- Witness for C7: in `sc7w`'s destruction trace the semaphores
(positions 0,1) and the fence (position 2) precede the render pass
(position 3), which precedes the framebuffer (position 4), the image view
(position 5), and the chain handle (position 6). -/
theorem c7_witness :
    (destroy_swapchain sc7w)[0]? = some (DestroyEvent.destroy_semaphore 11)
    ∧ 0 < 3 ∧ 2 < 3 ∧ 3 < 4 ∧ 4 < 5 ∧ 5 < 6 :=
  ⟨rfl,
   (c7_destruction_order sc7w).1 0 3 11 5 rfl rfl,
   (c7_destruction_order sc7w).2.1 2 3 13 5 rfl rfl,
   (c7_destruction_order sc7w).2.2.1 3 4 5 10 rfl rfl,
   (c7_destruction_order sc7w).2.2.2.1 4 5 10 7 rfl rfl,
   (c7_destruction_order sc7w).2.2.2.2.1 5 6 7 3 rfl rfl⟩

/-! ## Claims about pipeline creation -/

lemma collect_stage_infos_length_le (o : PipelineOracle) :
    ∀ (ss : List ShaderInfo) (i : Nat),
      (collect_stage_infos o i ss).length ≤ ss.length := by
  intro ss
  induction ss with
  | nil => intro i; simp [collect_stage_infos]
  | cons s rest ih =>
    intro i
    cases h : o.module_created i <;> simp [collect_stage_infos, h]
    · exact Nat.le_succ_of_le (ih (i + 1))
    · exact ih (i + 1)

lemma collect_stage_infos_length_all (o : PipelineOracle)
    (h : ∀ i, o.module_created i = true) :
    ∀ (ss : List ShaderInfo) (i : Nat),
      (collect_stage_infos o i ss).length = ss.length := by
  intro ss
  induction ss with
  | nil => intro i; simp [collect_stage_infos]
  | cons s rest ih =>
    intro i
    simp [collect_stage_infos, h i, ih (i + 1)]

/-- Claim C8 as amended: failure of `vkCreatePipelineLayout` or
`vkCreateGraphicsPipelines` aborts the build with no pipeline returned,
and the built pipeline never carries more stages than shaders were
supplied; but a failed shader-module creation is skipped (`continue`), so
the pipeline is built from the remaining stages, and only when every
module creation succeeds does the returned pipeline have exactly one
stage per supplied shader. -/
theorem c8_pipeline_failure_behavior (o : PipelineOracle)
    (shaders : List ShaderInfo) :
    (o.layout_created = false → create_graphics_pipeline o shaders = none)
    ∧ (o.pipeline_created = false → create_graphics_pipeline o shaders = none)
    ∧ (∀ p, create_graphics_pipeline o shaders = some p →
        p.stages.length ≤ shaders.length)
    ∧ ((∀ i, o.module_created i = true) →
        ∀ p, create_graphics_pipeline o shaders = some p →
          p.stages.length = shaders.length) := by
  refine ⟨?_, ?_, ?_, ?_⟩
  · intro h
    simp [create_graphics_pipeline, h]
  · intro h
    simp [create_graphics_pipeline, h]
  · intro p hp
    cases hl : o.layout_created <;> cases hpc : o.pipeline_created <;>
      simp [create_graphics_pipeline, hl, hpc] at hp
    rw [← hp]
    exact collect_stage_infos_length_le o shaders 0
  · intro hall p hp
    cases hl : o.layout_created <;> cases hpc : o.pipeline_created <;>
      simp [create_graphics_pipeline, hl, hpc] at hp
    rw [← hp]
    exact collect_stage_infos_length_all o hall shaders 0

/-- Counterexample to C8 as stated: with two supplied shaders and a driver
on which the first module creation fails (and everything else succeeds),
`create_graphics_pipeline` still returns a pipeline, and that pipeline was
built from a single stage — the fragment stage alone — rather than the
two supplied. -/
theorem c8_counterexample :
    o8.module_created 0 = false
    ∧ create_graphics_pipeline o8 shaders8 = some { stages := [16] }
    ∧ shaders8.length = 2 :=
  ⟨rfl, rfl, rfl⟩

/-- Witness for C8: when `vkCreatePipelineLayout` fails, the build returns
no pipeline. -/
theorem c8_witness : create_graphics_pipeline o8w shaders8 = none :=
  (c8_pipeline_failure_behavior o8w shaders8).1 rfl

end VulkanRenderer
